import Mathlib

/-!
Verification of the leveled logging collector of the `db` package
(`logger.go`), via a shallow embedding in Lean 4.

Modelling conventions:
* `LogLevel` (Go `int8`) is embedded as `Int`; all values involved are tiny,
  so no wrap-around arises and ordinary integer ordering is the Go ordering.
* The Go `Logger` interface is embedded as an identity type `Logger`; the
  package-level `defaultLogger` is one distinguished value of it.  The
  observable behaviour of a backend call is recorded as a `LogEvent`
  (which backend was invoked, which of its six operations, and with which
  arguments); a dispatch returns the list of events in invocation order,
  which models a backend whose panic/fatal operations return.
* `runtime.Caller(2)` is embedded as an explicit parameter
  `caller : Option (String × Int)` (the file and line on success, `none`
  on failure), and `fmt.Sprintf` on `%s`/`%d` verbs as string concatenation.
* Variadic `v ...interface{}` arguments are embedded as `List String`.
* Go map lookup `logLevels[level]` yields the zero value `""` for a key
  that is absent, hence the final `else ""`.
-/

abbrev LogLevel := Int

def LogLevelTrace : LogLevel := -1

/- In the Go source the remaining six levels are declared with `iota` in the
   same `const` block, one ConstSpec after `LogLevelTrace`; `iota` therefore
   has value 1 at `LogLevelDebug` and the levels ascend from there. -/
def LogLevelDebug : LogLevel := 1
def LogLevelInfo : LogLevel := 2
def LogLevelWarn : LogLevel := 3
def LogLevelError : LogLevel := 4
def LogLevelFatal : LogLevel := 5
def LogLevelPanic : LogLevel := 6

def logLevels (level : LogLevel) : String :=
  if level = LogLevelTrace then "TRACE"
  else if level = LogLevelDebug then "DEBUG"
  else if level = LogLevelInfo then "INFO"
  else if level = LogLevelWarn then "WARNING"
  else if level = LogLevelError then "ERROR"
  else if level = LogLevelFatal then "FATAL"
  else if level = LogLevelPanic then "PANIC"
  else ""

/-- The keys of the Go map `logLevels` (iteration order of a Go map is
    arbitrary; the display names are pairwise distinct, so any order yields
    the same lookup result). -/
def logLevelKeys : List LogLevel :=
  [LogLevelTrace, LogLevelDebug, LogLevelInfo, LogLevelWarn,
   LogLevelError, LogLevelFatal, LogLevelPanic]

def defaultLogLevel : LogLevel := LogLevelWarn

/-- Backend identity: the Go `Logger` interface value held by the collector.
    Distinct `id`s model distinct backend objects. -/
inductive Logger where
  | stdLog (id : Nat)
deriving DecidableEq, Repr

/-- `var defaultLogger Logger = log.New(os.Stdout, "", log.LstdFlags)`. -/
def defaultLogger : Logger := Logger.stdLog 0

/-- One observable backend invocation: which backend, which of the six
    interface operations, and its arguments.  The formatted operations
    carry a format string and the variadic arguments; the plain ones carry
    only the variadic argument list. -/
inductive LogEvent where
  | Panicf (logger : Logger) (format : String) (v : List String)
  | Fatalf (logger : Logger) (format : String) (v : List String)
  | Printf (logger : Logger) (format : String) (v : List String)
  | Panic (logger : Logger) (v : List String)
  | Fatal (logger : Logger) (v : List String)
  | Print (logger : Logger) (v : List String)
deriving DecidableEq, Repr

def LogEvent.isPanicOp : LogEvent → Bool
  | .Panicf _ _ _ => true
  | .Panic _ _ => true
  | _ => false

def LogEvent.isFatalOp : LogEvent → Bool
  | .Fatalf _ _ _ => true
  | .Fatal _ _ => true
  | _ => false

def LogEvent.isPrintOp : LogEvent → Bool
  | .Printf _ _ _ => true
  | .Print _ _ => true
  | _ => false

def LogEvent.loggerOf : LogEvent → Logger
  | .Panicf lg _ _ => lg
  | .Fatalf lg _ _ => lg
  | .Printf lg _ _ => lg
  | .Panic lg _ => lg
  | .Fatal lg _ => lg
  | .Print lg _ => lg

/-- `type loggingCollector struct { level LogLevel; logger Logger }`.
    The Go `logger` field is a nilable interface value: `none` is nil. -/
structure loggingCollector where
  level : LogLevel
  logger : Option Logger
deriving DecidableEq, Repr

def loggingCollector.Enabled (c : loggingCollector) (level : LogLevel) : Bool :=
  level ≥ c.level

def loggingCollector.SetLevel (c : loggingCollector) (level : LogLevel) :
    loggingCollector :=
  { c with level := level }

def loggingCollector.Level (c : loggingCollector) : LogLevel :=
  c.level

def loggingCollector.SetLogger (c : loggingCollector) (logger : Option Logger) :
    loggingCollector :=
  { c with logger := logger }

/-- `func (c *loggingCollector) Logger() Logger`: resolves the backend lazily,
    falling back to `defaultLogger` when no explicit backend is set. -/
def loggingCollector.Logger (c : loggingCollector) :=
  match c.logger with
  | none => defaultLogger
  | some lg => lg

/-- The `format` string built by `logf` before dispatch: the plain header
    when `runtime.Caller(2)` fails, the `log_level=… file=…:…` header when
    it succeeds, and the `"upper/db: "` tag in front either way. -/
def logfFormat (caller : Option (String × Int)) (level : LogLevel)
    (f : String) : String :=
  match caller with
  | none => "upper/db: " ++ (logLevels level ++ "\n" ++ f)
  | some (file, line) =>
      "upper/db: " ++ ("log_level=" ++ logLevels level ++ " file=" ++ file
        ++ ":" ++ toString line ++ "\n" ++ f)

/-- The header string built by `log` (plain-argument path) before dispatch. -/
def logFormat (caller : Option (String × Int)) (level : LogLevel) : String :=
  match caller with
  | none => "upper/db: " ++ (logLevels level ++ "\n")
  | some (file, line) =>
      "upper/db: " ++ ("log_level=" ++ logLevels level ++ " file=" ++ file
        ++ ":" ++ toString line ++ "\n")

/-- `func (c *loggingCollector) logf(level LogLevel, f string, v ...)`:
    the three severity checks in source order, each producing its backend
    invocation when it fires.  Returns the (unchanged) collector and the
    event list. -/
def loggingCollector.logf (c : loggingCollector)
    (caller : Option (String × Int)) (level : LogLevel) (f : String)
    (v : List String) : loggingCollector × List LogEvent :=
  let format := logfFormat caller level f
  let evs₁ := if level ≥ LogLevelPanic
    then [LogEvent.Panicf c.Logger format v] else []
  let evs₂ := if level ≥ LogLevelFatal
    then [LogEvent.Fatalf c.Logger format v] else []
  let evs₃ := if c.Enabled level
    then [LogEvent.Printf c.Logger format v] else []
  (c, evs₁ ++ evs₂ ++ evs₃)

/-- `func (c *loggingCollector) log(level LogLevel, v ...)`: the header is
    prepended to the argument list (`v = append([]interface{}{format}, v...)`)
    and the same three checks run in source order. -/
def loggingCollector.log (c : loggingCollector)
    (caller : Option (String × Int)) (level : LogLevel)
    (v : List String) : loggingCollector × List LogEvent :=
  let format := logFormat caller level
  let args := format :: v
  let evs₁ := if level ≥ LogLevelPanic
    then [LogEvent.Panic c.Logger args] else []
  let evs₂ := if level ≥ LogLevelFatal
    then [LogEvent.Fatal c.Logger args] else []
  let evs₃ := if c.Enabled level
    then [LogEvent.Print c.Logger args] else []
  (c, evs₁ ++ evs₂ ++ evs₃)

def loggingCollector.Debugf (c : loggingCollector)
    (caller : Option (String × Int)) (f : String) (v : List String) :
    loggingCollector × List LogEvent :=
  c.logf caller LogLevelDebug f v

def loggingCollector.Debug (c : loggingCollector)
    (caller : Option (String × Int)) (v : List String) :
    loggingCollector × List LogEvent :=
  c.log caller LogLevelDebug v

def loggingCollector.Tracef (c : loggingCollector)
    (caller : Option (String × Int)) (f : String) (v : List String) :
    loggingCollector × List LogEvent :=
  c.logf caller LogLevelTrace f v

/-- NOTE: the source dispatches the plain-argument `Trace` at
    `LogLevelDebug`, not `LogLevelTrace`. -/
def loggingCollector.Trace (c : loggingCollector)
    (caller : Option (String × Int)) (v : List String) :
    loggingCollector × List LogEvent :=
  c.log caller LogLevelDebug v

def loggingCollector.Infof (c : loggingCollector)
    (caller : Option (String × Int)) (f : String) (v : List String) :
    loggingCollector × List LogEvent :=
  c.logf caller LogLevelInfo f v

def loggingCollector.Info (c : loggingCollector)
    (caller : Option (String × Int)) (v : List String) :
    loggingCollector × List LogEvent :=
  c.log caller LogLevelInfo v

def loggingCollector.Warnf (c : loggingCollector)
    (caller : Option (String × Int)) (f : String) (v : List String) :
    loggingCollector × List LogEvent :=
  c.logf caller LogLevelWarn f v

def loggingCollector.Warn (c : loggingCollector)
    (caller : Option (String × Int)) (v : List String) :
    loggingCollector × List LogEvent :=
  c.log caller LogLevelWarn v

def loggingCollector.Errorf (c : loggingCollector)
    (caller : Option (String × Int)) (f : String) (v : List String) :
    loggingCollector × List LogEvent :=
  c.logf caller LogLevelError f v

def loggingCollector.Error (c : loggingCollector)
    (caller : Option (String × Int)) (v : List String) :
    loggingCollector × List LogEvent :=
  c.log caller LogLevelError v

def loggingCollector.Fatalf (c : loggingCollector)
    (caller : Option (String × Int)) (f : String) (v : List String) :
    loggingCollector × List LogEvent :=
  c.logf caller LogLevelFatal f v

def loggingCollector.Fatal (c : loggingCollector)
    (caller : Option (String × Int)) (v : List String) :
    loggingCollector × List LogEvent :=
  c.log caller LogLevelFatal v

def loggingCollector.Panicf (c : loggingCollector)
    (caller : Option (String × Int)) (f : String) (v : List String) :
    loggingCollector × List LogEvent :=
  c.logf caller LogLevelPanic f v

def loggingCollector.Panic (c : loggingCollector)
    (caller : Option (String × Int)) (v : List String) :
    loggingCollector × List LogEvent :=
  c.log caller LogLevelPanic v

/-- `var defaultLoggingCollector = &loggingCollector{level: defaultLogLevel,
    logger: defaultLogger}`. -/
def defaultLoggingCollector : loggingCollector :=
  { level := defaultLogLevel, logger := some defaultLogger }

/-- The package `init` function: `env` is the value of `UPPER_DB_LOG`
    (`none` when the variable is unset; `os.Getenv` also yields `""` then).
    A non-empty value is compared against every display name in the
    `logLevels` map and the first (unique) match sets the level. -/
def initCollector (env : Option String) : loggingCollector :=
  let c := defaultLoggingCollector
  match env with
  | none => c
  | some logLevel =>
      if logLevel ≠ "" then
        match logLevelKeys.find? (fun k => logLevels k = logLevel) with
        | some k => c.SetLevel k
        | none => c
      else c

/-- `t` occurs as a contiguous substring of `s`. -/
def strContains (s t : String) : Prop :=
  ∃ a b : String, s = a ++ t ++ b

/-- `t` begins `s`. -/
def strStartsWith (s t : String) : Prop :=
  ∃ b : String, s = t ++ b

theorem strContains_intro (s a t b : String) (h : s = a ++ (t ++ b)) :
    strContains s t :=
  ⟨a, b, by rw [h, String.append_assoc]⟩

theorem strContains_refl_append (t b : String) : strContains (t ++ b) t :=
  ⟨"", b, by simp⟩

/- Counting the backend operations in an event trace. -/

def panicOpCount (evs : List LogEvent) : Nat :=
  (evs.filter LogEvent.isPanicOp).length

def fatalOpCount (evs : List LogEvent) : Nat :=
  (evs.filter LogEvent.isFatalOp).length

def printOpCount (evs : List LogEvent) : Nat :=
  (evs.filter LogEvent.isPrintOp).length

/- Shared lemmas about the two dispatch paths. -/

theorem logf_op_counts (c : loggingCollector) (caller : Option (String × Int))
    (level : LogLevel) (f : String) (v : List String) :
    panicOpCount (c.logf caller level f v).2
        = (if level ≥ LogLevelPanic then 1 else 0) ∧
    fatalOpCount (c.logf caller level f v).2
        = (if level ≥ LogLevelFatal then 1 else 0) ∧
    printOpCount (c.logf caller level f v).2
        = (if c.Enabled level then 1 else 0) := by
  by_cases h₁ : level ≥ LogLevelPanic <;> by_cases h₂ : level ≥ LogLevelFatal <;>
    by_cases h₃ : c.Enabled level = true <;>
    simp [loggingCollector.logf, panicOpCount, fatalOpCount, printOpCount,
      h₁, h₂, h₃, LogEvent.isPanicOp, LogEvent.isFatalOp, LogEvent.isPrintOp]

theorem log_op_counts (c : loggingCollector) (caller : Option (String × Int))
    (level : LogLevel) (v : List String) :
    panicOpCount (c.log caller level v).2
        = (if level ≥ LogLevelPanic then 1 else 0) ∧
    fatalOpCount (c.log caller level v).2
        = (if level ≥ LogLevelFatal then 1 else 0) ∧
    printOpCount (c.log caller level v).2
        = (if c.Enabled level then 1 else 0) := by
  by_cases h₁ : level ≥ LogLevelPanic <;> by_cases h₂ : level ≥ LogLevelFatal <;>
    by_cases h₃ : c.Enabled level = true <;>
    simp [loggingCollector.log, panicOpCount, fatalOpCount, printOpCount,
      h₁, h₂, h₃, LogEvent.isPanicOp, LogEvent.isFatalOp, LogEvent.isPrintOp]

theorem logf_op_order (c : loggingCollector) (caller : Option (String × Int))
    (level : LogLevel) (f : String) (v : List String) :
    (c.logf caller level f v).2
        = (c.logf caller level f v).2.filter LogEvent.isPanicOp
          ++ (c.logf caller level f v).2.filter LogEvent.isFatalOp
          ++ (c.logf caller level f v).2.filter LogEvent.isPrintOp := by
  by_cases h₁ : level ≥ LogLevelPanic <;> by_cases h₂ : level ≥ LogLevelFatal <;>
    by_cases h₃ : c.Enabled level = true <;>
    simp [loggingCollector.logf, h₁, h₂, h₃,
      LogEvent.isPanicOp, LogEvent.isFatalOp, LogEvent.isPrintOp]

theorem log_op_order (c : loggingCollector) (caller : Option (String × Int))
    (level : LogLevel) (v : List String) :
    (c.log caller level v).2
        = (c.log caller level v).2.filter LogEvent.isPanicOp
          ++ (c.log caller level v).2.filter LogEvent.isFatalOp
          ++ (c.log caller level v).2.filter LogEvent.isPrintOp := by
  by_cases h₁ : level ≥ LogLevelPanic <;> by_cases h₂ : level ≥ LogLevelFatal <;>
    by_cases h₃ : c.Enabled level = true <;>
    simp [loggingCollector.log, h₁, h₂, h₃,
      LogEvent.isPanicOp, LogEvent.isFatalOp, LogEvent.isPrintOp]

theorem logf_events_logger (c : loggingCollector) (caller : Option (String × Int))
    (level : LogLevel) (f : String) (v : List String) :
    ∀ e ∈ (c.logf caller level f v).2, e.loggerOf = c.Logger := by
  intro e he
  simp only [loggingCollector.logf, List.mem_append] at he
  rcases he with (he | he) | he <;> split at he <;>
    simp_all [LogEvent.loggerOf]

theorem log_events_logger (c : loggingCollector) (caller : Option (String × Int))
    (level : LogLevel) (v : List String) :
    ∀ e ∈ (c.log caller level v).2, e.loggerOf = c.Logger := by
  intro e he
  simp only [loggingCollector.log, List.mem_append] at he
  rcases he with (he | he) | he <;> split at he <;>
    simp_all [LogEvent.loggerOf]

/- Containment facts about the composed message strings. -/

theorem upperdb_loglevel_fold (x : String) :
    "upper/db: " ++ ("log_level=" ++ x) = "upper/db: log_level=" ++ x := by
  rw [← String.append_assoc]; rfl

theorem space_file_fold (x : String) :
    " " ++ ("file=" ++ x) = " file=" ++ x := by
  rw [← String.append_assoc]; rfl

theorem logfFormat_contains_level (caller : Option (String × Int))
    (level : LogLevel) (f : String) :
    strContains (logfFormat caller level f) (logLevels level) := by
  cases caller with
  | none =>
      exact ⟨"upper/db: ", "\n" ++ f, by simp [logfFormat, String.append_assoc]⟩
  | some fl =>
      obtain ⟨file, line⟩ := fl
      exact ⟨"upper/db: log_level=",
        " file=" ++ file ++ ":" ++ toString line ++ "\n" ++ f,
        by simp [logfFormat, String.append_assoc, upperdb_loglevel_fold]⟩

theorem logfFormat_contains_f (caller : Option (String × Int))
    (level : LogLevel) (f : String) :
    strContains (logfFormat caller level f) f := by
  cases caller with
  | none =>
      exact ⟨"upper/db: " ++ (logLevels level ++ "\n"), "",
        by simp [logfFormat, String.append_assoc]⟩
  | some fl =>
      obtain ⟨file, line⟩ := fl
      exact ⟨"upper/db: " ++ ("log_level=" ++ logLevels level ++ " file="
          ++ file ++ ":" ++ toString line ++ "\n"), "",
        by simp [logfFormat, String.append_assoc]⟩

theorem logFormat_contains_level (caller : Option (String × Int))
    (level : LogLevel) :
    strContains (logFormat caller level) (logLevels level) := by
  cases caller with
  | none =>
      exact ⟨"upper/db: ", "\n", by simp [logFormat, String.append_assoc]⟩
  | some fl =>
      obtain ⟨file, line⟩ := fl
      exact ⟨"upper/db: log_level=",
        " file=" ++ file ++ ":" ++ toString line ++ "\n",
        by simp [logFormat, String.append_assoc, upperdb_loglevel_fold]⟩

theorem logfFormat_contains_fileline (level : LogLevel) (f file : String)
    (line : Int) :
    strContains (logfFormat (some (file, line)) level f)
      ("file=" ++ file ++ ":" ++ toString line) := by
  refine ⟨"upper/db: " ++ ("log_level=" ++ (logLevels level ++ " ")),
    "\n" ++ f, ?_⟩
  simp [logfFormat, String.append_assoc, space_file_fold]

theorem logFormat_contains_fileline (level : LogLevel) (file : String)
    (line : Int) :
    strContains (logFormat (some (file, line)) level)
      ("file=" ++ file ++ ":" ++ toString line) := by
  refine ⟨"upper/db: " ++ ("log_level=" ++ (logLevels level ++ " ")),
    "\n", ?_⟩
  simp [logFormat, String.append_assoc, space_file_fold]

theorem logfFormat_tag (caller : Option (String × Int)) (level : LogLevel)
    (f : String) :
    strStartsWith (logfFormat caller level f) "upper/db: " := by
  cases caller with
  | none => exact ⟨logLevels level ++ "\n" ++ f, by simp [logfFormat]⟩
  | some fl =>
      obtain ⟨file, line⟩ := fl
      exact ⟨"log_level=" ++ logLevels level ++ " file=" ++ file ++ ":"
          ++ toString line ++ "\n" ++ f, by simp [logfFormat]⟩

theorem logFormat_tag (caller : Option (String × Int)) (level : LogLevel) :
    strStartsWith (logFormat caller level) "upper/db: " := by
  cases caller with
  | none => exact ⟨logLevels level ++ "\n", by simp [logFormat]⟩
  | some fl =>
      obtain ⟨file, line⟩ := fl
      exact ⟨"log_level=" ++ logLevels level ++ " file=" ++ file ++ ":"
          ++ toString line ++ "\n", by simp [logFormat]⟩

/-- C1: for every level `L` and every current threshold, `Enabled L` is true
    iff `L ≥` the threshold; `Enabled` is a pure predicate (in this embedding
    it returns only a `Bool` and cannot touch the collector), and after
    `SetLevel T` every subsequent `Enabled L` is evaluated against `T`
    (no caching of the old threshold). -/
theorem C1_enabled_iff_threshold (c : loggingCollector) (L T : LogLevel) :
    (c.Enabled L = true ↔ L ≥ c.level) ∧
    ((c.SetLevel T).Enabled L = true ↔ L ≥ T) := by
  simp [loggingCollector.Enabled, loggingCollector.SetLevel]

/-- C2: both dispatch paths evaluate the three checks in the fixed order
    panic, fatal, print, each independently: the panic operation fires iff
    `level ≥ Panic`, the fatal operation iff `level ≥ Fatal`, the print
    operation iff `Enabled level`, each exactly once, and the event trace is
    ordered panic events, then fatal events, then print events.  With a
    backend whose panic/fatal operations return, a Panic-level call produces
    a panic, a fatal, and (when enabled) a print invocation, and a
    Fatal-level call produces a fatal invocation. -/
theorem C2_dispatch_cascade (c : loggingCollector)
    (caller : Option (String × Int)) (level : LogLevel) (f : String)
    (v : List String) :
    (panicOpCount (c.logf caller level f v).2
        = (if level ≥ LogLevelPanic then 1 else 0) ∧
     fatalOpCount (c.logf caller level f v).2
        = (if level ≥ LogLevelFatal then 1 else 0) ∧
     printOpCount (c.logf caller level f v).2
        = (if c.Enabled level then 1 else 0) ∧
     (c.logf caller level f v).2
        = (c.logf caller level f v).2.filter LogEvent.isPanicOp
          ++ (c.logf caller level f v).2.filter LogEvent.isFatalOp
          ++ (c.logf caller level f v).2.filter LogEvent.isPrintOp) ∧
    (panicOpCount (c.log caller level v).2
        = (if level ≥ LogLevelPanic then 1 else 0) ∧
     fatalOpCount (c.log caller level v).2
        = (if level ≥ LogLevelFatal then 1 else 0) ∧
     printOpCount (c.log caller level v).2
        = (if c.Enabled level then 1 else 0) ∧
     (c.log caller level v).2
        = (c.log caller level v).2.filter LogEvent.isPanicOp
          ++ (c.log caller level v).2.filter LogEvent.isFatalOp
          ++ (c.log caller level v).2.filter LogEvent.isPrintOp) ∧
    (panicOpCount (c.Panicf caller f v).2 = 1 ∧
     fatalOpCount (c.Panicf caller f v).2 = 1 ∧
     printOpCount (c.Panicf caller f v).2
        = (if c.Enabled LogLevelPanic then 1 else 0) ∧
     panicOpCount (c.Panic caller v).2 = 1 ∧
     fatalOpCount (c.Panic caller v).2 = 1 ∧
     printOpCount (c.Panic caller v).2
        = (if c.Enabled LogLevelPanic then 1 else 0) ∧
     fatalOpCount (c.Fatalf caller f v).2 = 1 ∧
     fatalOpCount (c.Fatal caller v).2 = 1) := by
  refine ⟨⟨(logf_op_counts c caller level f v).1,
           (logf_op_counts c caller level f v).2.1,
           (logf_op_counts c caller level f v).2.2,
           logf_op_order c caller level f v⟩,
          ⟨(log_op_counts c caller level v).1,
           (log_op_counts c caller level v).2.1,
           (log_op_counts c caller level v).2.2,
           log_op_order c caller level v⟩,
          ?_, ?_, ?_, ?_, ?_, ?_, ?_, ?_⟩
  · have h := (logf_op_counts c caller LogLevelPanic f v).1
    simpa [loggingCollector.Panicf] using h
  · have h := (logf_op_counts c caller LogLevelPanic f v).2.1
    simpa [loggingCollector.Panicf] using h
  · have h := (logf_op_counts c caller LogLevelPanic f v).2.2
    simpa [loggingCollector.Panicf] using h
  · have h := (log_op_counts c caller LogLevelPanic v).1
    simpa [loggingCollector.Panic] using h
  · have h := (log_op_counts c caller LogLevelPanic v).2.1
    simpa [loggingCollector.Panic] using h
  · have h := (log_op_counts c caller LogLevelPanic v).2.2
    simpa [loggingCollector.Panic] using h
  · have h := (logf_op_counts c caller LogLevelFatal f v).2.1
    simpa [loggingCollector.Fatalf] using h
  · have h := (log_op_counts c caller LogLevelFatal v).2.1
    simpa [loggingCollector.Fatal] using h

/-- C4 counterexample: the claim says Debug is the zero-valued level, but in
    the source `iota` already has value 1 at the `LogLevelDebug` ConstSpec,
    so `LogLevelDebug = 1`, not `0` (no level is zero-valued). -/
theorem C4_cex_debug_not_zero : ¬ (LogLevelDebug = 0) := by decide

/-- C4 (amended): the seven log levels have strictly ascending numeric values
    in the order Trace, Debug, Info, Warn, Error, Fatal, Panic; Trace (value
    `-1`) is numerically below Debug, and Debug has value `1` (not `0`);
    under the default threshold (Warn), `Enabled Trace` and `Enabled Debug`
    are both false. -/
theorem C4_levels_ascending :
    (LogLevelTrace < LogLevelDebug ∧ LogLevelDebug < LogLevelInfo ∧
     LogLevelInfo < LogLevelWarn ∧ LogLevelWarn < LogLevelError ∧
     LogLevelError < LogLevelFatal ∧ LogLevelFatal < LogLevelPanic) ∧
    LogLevelTrace = -1 ∧ LogLevelDebug = 1 ∧
    defaultLogLevel = LogLevelWarn ∧
    defaultLoggingCollector.Enabled LogLevelTrace = false ∧
    defaultLoggingCollector.Enabled LogLevelDebug = false := by decide

/-- C9: the threshold gates only the print path — for every collector state
    (hence every threshold, including ones above Panic), a Fatal-level
    dispatch invokes the fatal operation and a Panic-level dispatch invokes
    the panic and fatal operations, on both paths; with the threshold raised
    above Panic the print invocation is suppressed while the panic and fatal
    invocations still occur. -/
theorem C9_fatal_panic_ungated (c : loggingCollector)
    (caller : Option (String × Int)) (f : String) (v : List String) :
    (fatalOpCount (c.logf caller LogLevelFatal f v).2 = 1 ∧
     panicOpCount (c.logf caller LogLevelPanic f v).2 = 1 ∧
     fatalOpCount (c.logf caller LogLevelPanic f v).2 = 1) ∧
    (fatalOpCount (c.log caller LogLevelFatal v).2 = 1 ∧
     panicOpCount (c.log caller LogLevelPanic v).2 = 1 ∧
     fatalOpCount (c.log caller LogLevelPanic v).2 = 1) ∧
    ((c.SetLevel (LogLevelPanic + 1)).Enabled LogLevelPanic = false ∧
     printOpCount ((c.SetLevel (LogLevelPanic + 1)).logf caller LogLevelPanic f v).2 = 0 ∧
     panicOpCount ((c.SetLevel (LogLevelPanic + 1)).logf caller LogLevelPanic f v).2 = 1 ∧
     fatalOpCount ((c.SetLevel (LogLevelPanic + 1)).logf caller LogLevelPanic f v).2 = 1 ∧
     printOpCount ((c.SetLevel (LogLevelPanic + 1)).log caller LogLevelPanic v).2 = 0 ∧
     panicOpCount ((c.SetLevel (LogLevelPanic + 1)).log caller LogLevelPanic v).2 = 1 ∧
     fatalOpCount ((c.SetLevel (LogLevelPanic + 1)).log caller LogLevelPanic v).2 = 1) := by
  have hEn : (c.SetLevel (LogLevelPanic + 1)).Enabled LogLevelPanic = false := by
    simp [loggingCollector.SetLevel, loggingCollector.Enabled, LogLevelPanic]
  refine ⟨⟨?_, ?_, ?_⟩, ⟨?_, ?_, ?_⟩, hEn, ?_, ?_, ?_, ?_, ?_, ?_⟩
  · simpa using (logf_op_counts c caller LogLevelFatal f v).2.1
  · simpa using (logf_op_counts c caller LogLevelPanic f v).1
  · simpa using (logf_op_counts c caller LogLevelPanic f v).2.1
  · simpa using (log_op_counts c caller LogLevelFatal v).2.1
  · simpa using (log_op_counts c caller LogLevelPanic v).1
  · simpa using (log_op_counts c caller LogLevelPanic v).2.1
  · simpa [hEn] using
      (logf_op_counts (c.SetLevel (LogLevelPanic + 1)) caller LogLevelPanic f v).2.2
  · simpa using
      (logf_op_counts (c.SetLevel (LogLevelPanic + 1)) caller LogLevelPanic f v).1
  · simpa using
      (logf_op_counts (c.SetLevel (LogLevelPanic + 1)) caller LogLevelPanic f v).2.1
  · simpa [hEn] using
      (log_op_counts (c.SetLevel (LogLevelPanic + 1)) caller LogLevelPanic v).2.2
  · simpa using
      (log_op_counts (c.SetLevel (LogLevelPanic + 1)) caller LogLevelPanic v).1
  · simpa using
      (log_op_counts (c.SetLevel (LogLevelPanic + 1)) caller LogLevelPanic v).2.1

/-- C10: configuration fields change only through their own setters —
    `SetLevel` replaces the threshold and leaves the backend field unchanged,
    `SetLogger` replaces the backend field and leaves the threshold
    unchanged, and every log-emitting call (both internal dispatch paths and
    all fourteen per-level entry points, at any level, with the backend
    modelled as returning) leaves the whole collector unchanged. -/
theorem C10_config_frame (c : loggingCollector) (T : LogLevel)
    (b : Option Logger) (caller : Option (String × Int)) (level : LogLevel)
    (f : String) (v : List String) :
    ((c.SetLevel T).level = T ∧ (c.SetLevel T).logger = c.logger) ∧
    ((c.SetLogger b).logger = b ∧ (c.SetLogger b).level = c.level) ∧
    ((c.logf caller level f v).1 = c ∧ (c.log caller level v).1 = c) ∧
    ((c.Trace caller v).1 = c ∧ (c.Tracef caller f v).1 = c ∧
     (c.Debug caller v).1 = c ∧ (c.Debugf caller f v).1 = c ∧
     (c.Info caller v).1 = c ∧ (c.Infof caller f v).1 = c ∧
     (c.Warn caller v).1 = c ∧ (c.Warnf caller f v).1 = c ∧
     (c.Error caller v).1 = c ∧ (c.Errorf caller f v).1 = c ∧
     (c.Fatal caller v).1 = c ∧ (c.Fatalf caller f v).1 = c ∧
     (c.Panic caller v).1 = c ∧ (c.Panicf caller f v).1 = c) :=
  ⟨⟨rfl, rfl⟩, ⟨rfl, rfl⟩, ⟨rfl, rfl⟩,
   rfl, rfl, rfl, rfl, rfl, rfl, rfl, rfl, rfl, rfl, rfl, rfl, rfl, rfl⟩

/-- C3: the plain-argument `Trace` dispatches at Debug severity — it equals
    the plain dispatch at `LogLevelDebug`, is gated by the threshold at Debug
    (at threshold Debug it prints once while `Tracef` emits nothing), and its
    header is labeled with the Debug level name — while the formatted
    `Tracef` dispatches at Trace severity (at threshold Trace it prints
    once); the two variants differ. -/
theorem C3_trace_variants (c : loggingCollector)
    (caller : Option (String × Int)) (f : String) (v : List String) :
    (c.Trace caller v = c.log caller LogLevelDebug v) ∧
    (c.Tracef caller f v = c.logf caller LogLevelTrace f v) ∧
    (((c.SetLevel LogLevelDebug).Trace caller v).2
       = [LogEvent.Print (c.SetLevel LogLevelDebug).Logger
            (logFormat caller LogLevelDebug :: v)]) ∧
    (((c.SetLevel LogLevelDebug).Tracef caller f v).2 = []) ∧
    (((c.SetLevel LogLevelTrace).Tracef caller f v).2
       = [LogEvent.Printf (c.SetLevel LogLevelTrace).Logger
            (logfFormat caller LogLevelTrace f) v]) ∧
    strContains (logFormat caller LogLevelDebug) "DEBUG" := by
  refine ⟨rfl, rfl, ?_, ?_, ?_, ?_⟩
  · simp [loggingCollector.Trace, loggingCollector.log,
      loggingCollector.SetLevel, loggingCollector.Enabled,
      LogLevelDebug, LogLevelPanic, LogLevelFatal]
  · simp [loggingCollector.Tracef, loggingCollector.logf,
      loggingCollector.SetLevel, loggingCollector.Enabled,
      LogLevelDebug, LogLevelTrace, LogLevelPanic, LogLevelFatal]
  · simp [loggingCollector.Tracef, loggingCollector.logf,
      loggingCollector.SetLevel, loggingCollector.Enabled,
      LogLevelTrace, LogLevelPanic, LogLevelFatal]
  · have h := logFormat_contains_level caller LogLevelDebug
    rwa [(by decide : logLevels LogLevelDebug = "DEBUG")] at h

/-- C5: for every dispatch at severity `level`, the print operation is not
    invoked at all when `level` is below the threshold, and is invoked
    exactly once when `level` is at or above it; the printed message is the
    composed format string, which contains the level's display name and the
    original content (the format string `f` on the formatted path; on the
    plain path the original arguments `v` are passed unchanged after the
    header). -/
theorem C5_print_once_with_content (c : loggingCollector)
    (caller : Option (String × Int)) (level : LogLevel) (f : String)
    (v : List String) :
    ((c.logf caller level f v).2.filter LogEvent.isPrintOp
      = if c.Enabled level
          then [LogEvent.Printf c.Logger (logfFormat caller level f) v]
          else []) ∧
    ((c.log caller level v).2.filter LogEvent.isPrintOp
      = if c.Enabled level
          then [LogEvent.Print c.Logger (logFormat caller level :: v)]
          else []) ∧
    strContains (logfFormat caller level f) (logLevels level) ∧
    strContains (logfFormat caller level f) f ∧
    strContains (logFormat caller level) (logLevels level) := by
  refine ⟨?_, ?_, logfFormat_contains_level caller level f,
    logfFormat_contains_f caller level f,
    logFormat_contains_level caller level⟩ <;>
  · by_cases h₁ : level ≥ LogLevelPanic <;>
    by_cases h₂ : level ≥ LogLevelFatal <;>
    by_cases h₃ : c.Enabled level = true <;>
    simp [loggingCollector.logf, loggingCollector.log, h₁, h₂, h₃,
      LogEvent.isPrintOp]

/-- C6: the startup threshold — `UPPER_DB_LOG` unset or empty leaves the
    default (Warn); a value equal to one of the display names sets the
    corresponding level (in particular `ERROR` yields Error, and each of the
    seven names yields its level); any value matching no display name leaves
    the default. -/
theorem C6_env_threshold (s : String)
    (h : ∀ k ∈ logLevelKeys, logLevels k ≠ s) :
    (initCollector none).level = defaultLogLevel ∧
    (initCollector (some "")).level = defaultLogLevel ∧
    (initCollector (some "ERROR")).level = LogLevelError ∧
    (∀ k ∈ logLevelKeys, (initCollector (some (logLevels k))).level = k) ∧
    (initCollector (some s)).level = defaultLogLevel := by
  refine ⟨rfl, by decide, by decide, by decide, ?_⟩
  unfold initCollector
  by_cases hs : s = ""
  · simp [hs, defaultLoggingCollector, defaultLogLevel]
  · have hf : logLevelKeys.find? (fun k => logLevels k = s) = none := by
      rw [List.find?_eq_none]
      intro k hk
      simpa using h k hk
    simp [hs, hf, defaultLoggingCollector, defaultLogLevel]

/-- C6 witness: a concrete unrecognized value leaves the default. -/
theorem C6_env_threshold_witness :
    (initCollector (some "VERBOSE")).level = defaultLogLevel :=
  (C6_env_threshold "VERBOSE" (by decide)).2.2.2.2

/-- C7: the backend is resolved lazily on each emit — after setting an
    explicit backend the collector resolves to it, after then setting the
    backend to nil the collector resolves to the default backend again, and
    every event of a subsequent dispatch (either path, which in this total
    embedding always yields its events and never fails) is directed at the
    default backend. -/
theorem C7_logger_fallback (c : loggingCollector) (b : Logger)
    (caller : Option (String × Int)) (level : LogLevel) (f : String)
    (v : List String) :
    ((c.SetLogger (some b)).Logger = b) ∧
    (((c.SetLogger (some b)).SetLogger none).Logger = defaultLogger) ∧
    (∀ e ∈ (((c.SetLogger (some b)).SetLogger none).logf caller level f v).2,
        e.loggerOf = defaultLogger) ∧
    (∀ e ∈ (((c.SetLogger (some b)).SetLogger none).log caller level v).2,
        e.loggerOf = defaultLogger) := by
  refine ⟨rfl, rfl, ?_, ?_⟩
  · intro e he
    have h := logf_events_logger ((c.SetLogger (some b)).SetLogger none)
      caller level f v e he
    simpa [loggingCollector.SetLogger, loggingCollector.Logger] using h
  · intro e he
    have h := log_events_logger ((c.SetLogger (some b)).SetLogger none)
      caller level v e he
    simpa [loggingCollector.SetLogger, loggingCollector.Logger] using h

/-- C7 witness: a concrete set-then-clear sequence routes a concrete emitted
    event to the default backend. -/
theorem C7_logger_fallback_witness :
    (LogEvent.Printf defaultLogger (logfFormat none LogLevelError "boom")
        []).loggerOf = defaultLogger :=
  (C7_logger_fallback defaultLoggingCollector (Logger.stdLog 3) none
      LogLevelError "boom" []).2.2.1
    (LogEvent.Printf defaultLogger (logfFormat none LogLevelError "boom") [])
    (by decide)

/-- C8: every composed message begins with the fixed tag `"upper/db: "`; the
    header contains the level's display name in both caller cases; when
    caller introspection succeeds the header also contains `file=<file>:<line>`
    for the reported frame; when it fails the message is exactly the tag, the
    level name, and a newline before the content — file and line omitted, the
    level name kept (composition is total, so the call never fails). -/
theorem C8_message_header (level : LogLevel) (f file : String) (line : Int) :
    strStartsWith (logfFormat none level f) "upper/db: " ∧
    strStartsWith (logfFormat (some (file, line)) level f) "upper/db: " ∧
    strStartsWith (logFormat none level) "upper/db: " ∧
    strStartsWith (logFormat (some (file, line)) level) "upper/db: " ∧
    strContains (logfFormat (some (file, line)) level f) (logLevels level) ∧
    strContains (logFormat (some (file, line)) level) (logLevels level) ∧
    strContains (logfFormat (some (file, line)) level f)
      ("file=" ++ file ++ ":" ++ toString line) ∧
    strContains (logFormat (some (file, line)) level)
      ("file=" ++ file ++ ":" ++ toString line) ∧
    strContains (logfFormat none level f) (logLevels level) ∧
    strContains (logFormat none level) (logLevels level) ∧
    logfFormat none level f = "upper/db: " ++ (logLevels level ++ "\n" ++ f) ∧
    logFormat none level = "upper/db: " ++ (logLevels level ++ "\n") :=
  ⟨logfFormat_tag none level f, logfFormat_tag (some (file, line)) level f,
   logFormat_tag none level, logFormat_tag (some (file, line)) level,
   logfFormat_contains_level (some (file, line)) level f,
   logFormat_contains_level (some (file, line)) level,
   logfFormat_contains_fileline level f file line,
   logFormat_contains_fileline level file line,
   logfFormat_contains_level none level f,
   logFormat_contains_level none level,
   rfl, rfl⟩
